import Mathlib

/-!
Shallow embedding of the UI-coverage collection and merge orchestrator of
fixtures/ui_coverage.py: the CoverageManager phase methods (install,
collect, merge and their private helpers) and the UiCoveragePlugin
session hooks, together with the per-line result-set merge rule.
Effects performed over SSH are recorded as an ordered trace of actions;
outcomes of remote operations are supplied by an environment of booleans,
and Python exceptions are modelled with Except.
-/

namespace UiCoverage

/-- The value of store.parallelizer_role in a pytest process. -/
inductive Role where
  | master
  | slave
  | standalone
deriving DecidableEq, Repr, Fintype

/-- Primitive effects the coverage subsystem performs, in program order. -/
inductive Action where
  | printMessage (s : String)
  | logInfo (s : String)
  | logError (s : String)
  | logException
  | putGemfile
  | gemInstallSimplecov
  | bundleInstall
  | cleanApplianceCoverageDir
  | putCoverageHook
  | checkMarkerFile
  | putPatchFile
  | checkPatchRpm
  | installPatchRpm
  | applyPatch
  | stopEvmserverd
  | scpReportsToCollectionAppliance
  | restartEvmService
  | waitForWebUi
  | tarRawCoverage
  | getRawCoverageArchive
deriving DecidableEq, Repr

/-- Python exceptions that can escape a coverage-manager method. -/
inductive Err where
  | applianceVersion (msg : String)
  | sshError (op : String)
deriving DecidableEq, Repr

/-- Outcomes of the remote operations a session performs, fixed up front:
whether service restart and web-ui wait succeed (else they raise), whether
the scp transfer result is truthy, whether report retrieval succeeds,
whether this process runs on the collection appliance, whether the rpm
patch command is present, whether applying the patch succeeds, and which
branch version.pick chooses for simplecov installation. -/
structure Env where
  restartOk : Bool
  waitOk : Bool
  transferResultOk : Bool
  retrieveOk : Bool
  isCollectionAppliance : Bool
  patchRpmPresent : Bool
  patchApplyOk : Bool
  upstream : Bool
deriving DecidableEq, Repr

/-- Filesystem state of the appliance that the integration patch touches:
whether lib/code_coverage.rb (the marker the patch creates) exists. -/
structure ApplianceState where
  markerPresent : Bool
deriving DecidableEq, Repr

/-- CoverageManager.print_message: log the message, then send it as
"coverage: ..." to the slave manager, parallel session or terminal. -/
def print_message (s : String) : List Action :=
  [Action.logInfo s, Action.printMessage ("coverage: " ++ s)]

/-- IPAppliance.restart_evm_service as used by the manager: succeeds or
raises, according to the environment. -/
def restart_evm_service (env : Env) : Except Err (List Action) :=
  if env.restartOk then Except.ok [Action.restartEvmService]
  else Except.error (Err.sshError "restart_evm_service")

/-- IPAppliance.wait_for_web_ui: succeeds or raises. -/
def wait_for_web_ui (env : Env) : Except Err (List Action) :=
  if env.waitOk then Except.ok [Action.waitForWebUi]
  else Except.error (Err.sshError "wait_for_web_ui")

/-- CoverageManager.install_simplecov (leading underscore in the source):
put the gemfile, then gem-install simplecov (downstream) or run bundler
(upstream), chosen by version.pick. -/
def install_simplecov (env : Env) : List Action :=
  [Action.logInfo "Installing coverage gem on appliance", Action.putGemfile] ++
    (if env.upstream then [Action.bundleInstall] else [Action.gemInstallSimplecov])

/-- CoverageManager.install_coverage_hook (leading underscore in the
source): clean the appliance coverage dir, put the hook, check for the
marker file lib/code_coverage.rb; when the marker is present return True
at once, otherwise put and apply the manageiq-17302 patch, installing the
patch rpm first when it is absent. A successful patch creates the marker
file. Returns the trace, the new appliance state and the boolean result. -/
def install_coverage_hook (env : Env) (s : ApplianceState) :
    List Action × ApplianceState × Bool :=
  let pre := [Action.cleanApplianceCoverageDir, Action.putCoverageHook,
    Action.checkMarkerFile]
  if s.markerPresent then
    (pre, s, true)
  else
    let yumActs := if env.patchRpmPresent then [] else [Action.installPatchRpm]
    (pre ++
      [Action.logInfo "Patching system with manageiq patch 17302",
        Action.putPatchFile, Action.checkPatchRpm] ++
      yumActs ++ [Action.applyPatch],
     { markerPresent := env.patchApplyOk }, env.patchApplyOk)

/-- CoverageManager.install: print, install simplecov, install the
coverage hook, restart the evm service and wait for the web ui. The last
two raise on failure and install has no handler, so their errors
propagate. -/
def install (env : Env) (s : ApplianceState) :
    Except Err (List Action × ApplianceState) := do
  let t0 := print_message "installing"
  let t1 := install_simplecov env
  let hook := install_coverage_hook env s
  let t3 ← restart_evm_service env
  let t4 ← wait_for_web_ui env
  return (t0 ++ t1 ++ hook.1 ++ t3 ++ t4, hook.2.1)

/-- CoverageManager.collect_reports (leading underscore in the source):
stop evmserverd, then, when this appliance is not the collection
appliance, scp the reports over; a falsy scp result is reported with a
message and nothing is raised. -/
def collect_reports (env : Env) : List Action :=
  [Action.stopEvmserverd] ++
    (if env.isCollectionAppliance then []
     else
       print_message "sending reports to the collection appliance" ++
         [Action.scpReportsToCollectionAppliance] ++
         (if env.transferResultOk then []
          else print_message "There was an error sending reports"))

/-- CoverageManager.collect: print, collect the reports, then restart the
evm service (which raises on failure, with no handler in collect). -/
def collect (env : Env) : Except Err (List Action) := do
  let t0 := print_message "collecting reports"
  let t1 := collect_reports env
  let t2 ← restart_evm_service env
  return t0 ++ t1 ++ t2

/-- CoverageManager.retrieve_coverage_reports (leading underscore in the
source): tar the raw coverage on the collection appliance and fetch the
archive; succeeds or raises. -/
def retrieve_coverage_reports (env : Env) : Except Err (List Action) :=
  if env.retrieveOk then Except.ok [Action.tarRawCoverage, Action.getRawCoverageArchive]
  else Except.error (Err.sshError "retrieve_coverage_reports")

/-- CoverageManager.merge: print, then retrieve the coverage reports
inside a try block; any exception is caught, logged and reported with a
message, and merge returns normally. -/
def merge (env : Env) : Except Err (List Action) :=
  let hd := print_message "merging reports"
  match retrieve_coverage_reports env with
  | Except.ok t => Except.ok (hd ++ t)
  | Except.error _ =>
      Except.ok (hd ++
        [Action.logError "Error merging coverage reports", Action.logException] ++
        print_message "merging reports failed, error has been logged")

/-- Lexicographic comparison of numeric version components, as the
appliance Version class compares version strings. -/
def versionLt : List Nat → List Nat → Bool
  | _, [] => false
  | [], _ :: _ => true
  | a :: as, b :: bs =>
      if a < b then true else if b < a then false else versionLt as bs

/-- A constructed coverage manager, holding the appliance version. -/
structure CoverageManager where
  version : List Nat
deriving DecidableEq, Repr

/-- CoverageManager.init (the Python constructor): raises
ApplianceVersionException when the appliance version is below 5.8,
otherwise yields the manager. -/
def CoverageManager.init (v : List Nat) : Except Err CoverageManager :=
  if versionLt v [5, 8] then
    Except.error (Err.applianceVersion
      "Coverage statistics collection is only supported in appliances >= 5.8")
  else Except.ok ⟨v⟩

/-- Process-local pytest store: its parallelizer role and the hostname of
its current appliance. -/
structure Store where
  parallelizerRole : Role
  currentApplianceHostname : String
deriving DecidableEq, Repr

/-- The shared .ui-coverage runtime configuration: the persisted
collection-appliance hostname, absent until written. -/
structure RuntimeConf where
  collectionApplianceAddr : Option String
deriving DecidableEq, Repr

/-- CoverageManager.collection_appliance: a slave reads the hostname
persisted in the shared conf; any other role uses its own current
appliance. -/
def collection_appliance (st : Store) (conf : RuntimeConf) : Option String :=
  if st.parallelizerRole = Role.slave then conf.collectionApplianceAddr
  else some st.currentApplianceHostname

/-- UiCoveragePlugin.pytest_sessionstart: only the master writes the
collection-appliance hostname to the shared conf and saves it. -/
def pytest_sessionstart (st : Store) (conf : RuntimeConf) : RuntimeConf :=
  if st.parallelizerRole = Role.master then
    { conf with collectionApplianceAddr := collection_appliance st conf }
  else conf

/-- The CoverageManager phase methods the plugin can invoke. -/
inductive ManagerCall where
  | install
  | collect
  | merge
deriving DecidableEq, Repr, Fintype

/-- UiCoveragePlugin.pytest_collection_finish, as the manager calls it
makes: every non-master process installs coverage after collection. -/
def pytest_collection_finish_calls (role : Role) : List ManagerCall :=
  if role = Role.master then [] else [ManagerCall.install]

/-- UiCoveragePlugin.pytest_sessionfinish, as the manager calls it makes:
every non-master process collects; a slave then returns at once; master
and standalone go on to merge. -/
def pytest_sessionfinish_calls (role : Role) : List ManagerCall :=
  (if role = Role.master then [] else [ManagerCall.collect]) ++
    (if role = Role.slave then [] else [ManagerCall.merge])

/-- The manager calls one process makes over a whole session, in order:
collection-finish first, then session-finish. -/
def sessionCalls (role : Role) : List ManagerCall :=
  pytest_collection_finish_calls role ++ pytest_sessionfinish_calls role

/-- UiCoveragePlugin.pytest_collection_finish run against an appliance:
every non-master process runs install, whose exceptions have no handler
here and so propagate to pytest. -/
def pytest_collection_finish (role : Role) (env : Env) (s : ApplianceState) :
    Except Err (List Action × ApplianceState) :=
  if role = Role.master then Except.ok ([], s) else install env s

/-- Modelled from the spec: the cross-process result-set merge rule. The
merging script coverage_merger.rb that CoverageManager uploads and runs is
not under src (merge only archives raw data; the merging code is invoked
from the stream-reporter job), so the per-line rule is taken from the
specification: merging two per-line values is null when both are null and
otherwise the sum of the non-null hit counts. -/
def mergeLine : Option Nat → Option Nat → Option Nat
  | none, b => b
  | some a, none => some a
  | some a, some b => some (a + b)

/-- Modelled from the spec: merge two per-line hit-count sequences of one
file pointwise. -/
def mergeLines (xs ys : List (Option Nat)) : List (Option Nat) :=
  List.zipWith mergeLine xs ys

/-- Modelled from the spec: merge the per-line sequences a file
contributes across the input result sets, pairwise from the left. -/
def mergeMany : List (List (Option Nat)) → List (Option Nat)
  | [] => []
  | [s] => s
  | s :: t :: rest => mergeLines s (mergeMany (t :: rest))

/-- The per-line merge rule in the words of the specification: the merged
value at a line is null when every contributing value there is null, and
otherwise the sum of the non-null contributing hit counts. -/
def specMergeAt (vals : List (Option Nat)) : Option Nat :=
  if vals.all Option.isNone then none
  else some (vals.filterMap id).sum

lemma specMergeAt_singleton (v : Option Nat) : specMergeAt [v] = v := by
  cases v <;> simp [specMergeAt, Option.isNone]

lemma mergeLine_specMergeAt (a : Option Nat) (vs : List (Option Nat)) :
    mergeLine a (specMergeAt vs) = specMergeAt (a :: vs) := by
  by_cases h : vs.all Option.isNone = true
  · have hnil : vs.filterMap id = [] := by
      rw [List.filterMap_eq_nil_iff]
      intro x hx
      have := List.all_eq_true.mp h x hx
      simpa [Option.isNone_iff_eq_none] using this
    cases a <;> simp [specMergeAt, h, hnil, mergeLine]
  · cases a <;> simp [specMergeAt, h, mergeLine]

lemma length_mergeLines (xs ys : List (Option Nat)) :
    (mergeLines xs ys).length = min xs.length ys.length := by
  simp [mergeLines]

lemma length_mergeMany (L : Nat) :
    ∀ ss : List (List (Option Nat)), ss ≠ [] →
      (∀ s ∈ ss, s.length = L) → (mergeMany ss).length = L
  | [], h, _ => absurd rfl h
  | [s], _, hlen => by
      simpa [mergeMany] using hlen s (by simp)
  | s :: t :: rest, _, hlen => by
    have ih := length_mergeMany L (t :: rest) (by simp)
      (fun u hu => hlen u (List.mem_cons_of_mem s hu))
    have hs : s.length = L := hlen s (by simp)
    simp [mergeMany, length_mergeLines, ih, hs]

lemma getD_mergeLines :
    ∀ (i : Nat) (xs ys : List (Option Nat)), i < xs.length → i < ys.length →
      (mergeLines xs ys).getD i none = mergeLine (xs.getD i none) (ys.getD i none)
  | _, [], _, hx, _ => absurd hx (by simp)
  | _, _ :: _, [], _, hy => absurd hy (by simp)
  | 0, x :: _, y :: _, _, _ => by simp [mergeLines]
  | i + 1, _ :: xs, _ :: ys, hx, hy => by
    have := getD_mergeLines i xs ys (by simpa using hx) (by simpa using hy)
    simpa [mergeLines] using this

lemma getD_mergeMany (L : Nat) :
    ∀ ss : List (List (Option Nat)), ss ≠ [] →
      (∀ s ∈ ss, s.length = L) → ∀ i : Nat, i < L →
      (mergeMany ss).getD i none =
        specMergeAt (ss.map (fun s => s.getD i none))
  | [], h, _, _, _ => absurd rfl h
  | [s], _, hlen, i, hi => by
    simp [mergeMany, specMergeAt_singleton]
  | s :: t :: rest, _, hlen, i, hi => by
    have hlen' : ∀ u ∈ t :: rest, u.length = L :=
      fun u hu => hlen u (List.mem_cons_of_mem s hu)
    have ih := getD_mergeMany L (t :: rest) (by simp) hlen' i hi
    have hs : i < s.length := by rw [hlen s (by simp)]; exact hi
    have ht : i < (mergeMany (t :: rest)).length := by
      rw [length_mergeMany L (t :: rest) (by simp) hlen']; exact hi
    calc (mergeMany (s :: t :: rest)).getD i none
        = (mergeLines s (mergeMany (t :: rest))).getD i none := rfl
      _ = mergeLine (s.getD i none) ((mergeMany (t :: rest)).getD i none) :=
          getD_mergeLines i _ _ hs ht
      _ = mergeLine (s.getD i none)
            (specMergeAt ((t :: rest).map (fun s => s.getD i none))) := by rw [ih]
      _ = specMergeAt ((s :: t :: rest).map (fun s => s.getD i none)) := by
          rw [mergeLine_specMergeAt]; rfl

/-- A concrete environment where every remote operation succeeds, the
process runs on the collection appliance, the patch rpm is present and
the downstream gem-install branch is taken. Fields in order: restartOk,
waitOk, transferResultOk, retrieveOk, isCollectionAppliance,
patchRpmPresent, patchApplyOk, upstream. -/
def envAllOk : Env := ⟨true, true, true, true, true, true, true, false⟩

/-- C1: at session finish, collect() is invoked exactly on the non-master
processes, a slave returns immediately after collect() (so it never
merges), and merge() is invoked only on master and standalone; where both
run on one process, collect() comes before merge(). -/
theorem sessionfinish_collect_then_merge :
    ∀ r : Role,
      (ManagerCall.collect ∈ pytest_sessionfinish_calls r ↔ r ≠ Role.master) ∧
      (ManagerCall.merge ∈ pytest_sessionfinish_calls r ↔ r ≠ Role.slave) ∧
      pytest_sessionfinish_calls Role.slave = [ManagerCall.collect] ∧
      pytest_sessionfinish_calls Role.master = [ManagerCall.merge] ∧
      pytest_sessionfinish_calls Role.standalone =
        [ManagerCall.collect, ManagerCall.merge] := by
  decide

/-- C2: merge() never lets an exception escape: for every environment it
returns Except.ok, and on a failing retrieval it returns normally with
the error logged and a human-readable status message emitted. -/
theorem merge_catches_all_failures (env envF : Env)
    (hf : envF.retrieveOk = false) :
    (merge env).isOk = true ∧
    merge envF = Except.ok
      (print_message "merging reports" ++
        [Action.logError "Error merging coverage reports", Action.logException] ++
        print_message "merging reports failed, error has been logged") := by
  constructor
  · cases h : retrieve_coverage_reports env <;>
      simp [merge, h, Except.isOk, Except.toBool]
  · simp [merge, retrieve_coverage_reports, hf]

/-- C2 witness: a concrete failing environment satisfies the hypothesis
and merge returns normally on it. -/
theorem merge_catches_all_failures_witness :
    ({ envAllOk with retrieveOk := false } : Env).retrieveOk = false ∧
    ((merge envAllOk).isOk = true ∧
      merge { envAllOk with retrieveOk := false } = Except.ok
        (print_message "merging reports" ++
          [Action.logError "Error merging coverage reports", Action.logException] ++
          print_message "merging reports failed, error has been logged")) :=
  ⟨rfl, merge_catches_all_failures envAllOk { envAllOk with retrieveOk := false } rfl⟩

/-- C8: the master process writes its collection-appliance hostname (its
own current appliance) to the shared conf at session start; afterwards a
slave reading collection_appliance gets that persisted value, matching
the view of the master itself, and no non-master process writes the
conf. -/
theorem collection_appliance_agreement (m w n : Store) (conf : RuntimeConf)
    (hm : m.parallelizerRole = Role.master)
    (hw : w.parallelizerRole = Role.slave)
    (hn : n.parallelizerRole ≠ Role.master) :
    (pytest_sessionstart m conf).collectionApplianceAddr =
        some m.currentApplianceHostname ∧
    collection_appliance w (pytest_sessionstart m conf) =
        some m.currentApplianceHostname ∧
    collection_appliance m (pytest_sessionstart m conf) =
        some m.currentApplianceHostname ∧
    pytest_sessionstart n conf = conf := by
  refine ⟨?_, ?_, ?_, ?_⟩ <;>
    simp [pytest_sessionstart, collection_appliance, hm, hw, hn]

/-- C8 witness: concrete master, slave and standalone stores satisfy the
hypotheses and agree on the persisted coordinator hostname. -/
theorem collection_appliance_agreement_witness :
    ((⟨Role.master, "10.0.0.1"⟩ : Store).parallelizerRole = Role.master ∧
     (⟨Role.slave, "10.0.0.2"⟩ : Store).parallelizerRole = Role.slave ∧
     (⟨Role.standalone, "10.0.0.3"⟩ : Store).parallelizerRole ≠ Role.master) ∧
    ((pytest_sessionstart ⟨Role.master, "10.0.0.1"⟩ ⟨none⟩).collectionApplianceAddr =
        some "10.0.0.1" ∧
      collection_appliance ⟨Role.slave, "10.0.0.2"⟩
          (pytest_sessionstart ⟨Role.master, "10.0.0.1"⟩ ⟨none⟩) = some "10.0.0.1" ∧
      collection_appliance ⟨Role.master, "10.0.0.1"⟩
          (pytest_sessionstart ⟨Role.master, "10.0.0.1"⟩ ⟨none⟩) = some "10.0.0.1" ∧
      pytest_sessionstart ⟨Role.standalone, "10.0.0.3"⟩ ⟨none⟩ = ⟨none⟩) :=
  ⟨⟨rfl, rfl, by decide⟩,
    collection_appliance_agreement _ _ _ _ rfl rfl (by decide)⟩

/-- C9: when the restart succeeds, collect() runs to a normal return whose
final action restarts the evm service, after the stop that flushed the
coverage data. -/
theorem collect_restarts_evm (env : Env) (hr : env.restartOk = true) :
    ((collect env).toOption.getD []).getLast? = some Action.restartEvmService ∧
    Action.stopEvmserverd ∈ (collect env).toOption.getD [] := by
  have hcol : collect env = Except.ok
      (print_message "collecting reports" ++ collect_reports env ++
        [Action.restartEvmService]) := by
    simp [collect, restart_evm_service, hr]
  rw [hcol]
  constructor
  · show (print_message "collecting reports" ++ collect_reports env ++
      [Action.restartEvmService]).getLast? = some Action.restartEvmService
    exact List.getLast?_concat _
  · show Action.stopEvmserverd ∈ print_message "collecting reports" ++
      collect_reports env ++ [Action.restartEvmService]
    simp [collect_reports]

/-- C9 witness: a concrete environment with a successful restart. -/
theorem collect_restarts_evm_witness :
    envAllOk.restartOk = true ∧
    (((collect envAllOk).toOption.getD []).getLast? =
        some Action.restartEvmService ∧
      Action.stopEvmserverd ∈ (collect envAllOk).toOption.getD []) :=
  ⟨rfl, collect_restarts_evm envAllOk rfl⟩

/-- C10: constructing a CoverageManager for an appliance whose version is
below 5.8 raises ApplianceVersionException, so no manager (and hence no
coverage phase) exists for such an appliance. -/
theorem init_below_5_8_raises (v : List Nat) (h : versionLt v [5, 8] = true) :
    CoverageManager.init v = Except.error (Err.applianceVersion
      "Coverage statistics collection is only supported in appliances >= 5.8") ∧
    (CoverageManager.init v).isOk = false := by
  simp [CoverageManager.init, h, Except.isOk, Except.toBool]

/-- C10 witness: version 5.7 is below 5.8 and construction fails there. -/
theorem init_below_5_8_raises_witness :
    versionLt [5, 7] [5, 8] = true ∧
    (CoverageManager.init [5, 7] = Except.error (Err.applianceVersion
        "Coverage statistics collection is only supported in appliances >= 5.8") ∧
      (CoverageManager.init [5, 7]).isOk = false) :=
  ⟨rfl, init_below_5_8_raises [5, 7] rfl⟩

/-- A concrete environment for a participant that is not the collection
appliance and whose scp transfer result is falsy. -/
def envTransferFail : Env :=
  { envAllOk with isCollectionAppliance := false, transferResultOk := false }

/-- C3: during report collection the service is stopped first; the
transfer to the collection appliance happens exactly when the host is not
the collection appliance; a failed transfer is reported with a message,
nothing is raised, and collect() still finishes its remaining steps. -/
theorem collect_reports_best_effort (env envC : Env)
    (hc : env.isCollectionAppliance = false)
    (ht : env.transferResultOk = false)
    (hr : env.restartOk = true)
    (hcC : envC.isCollectionAppliance = true) :
    (collect_reports env).head? = some Action.stopEvmserverd ∧
    Action.scpReportsToCollectionAppliance ∈ collect_reports env ∧
    Action.printMessage "coverage: There was an error sending reports" ∈
      collect_reports env ∧
    collect env = Except.ok
      (print_message "collecting reports" ++ collect_reports env ++
        [Action.restartEvmService]) ∧
    (collect_reports envC).head? = some Action.stopEvmserverd ∧
    Action.scpReportsToCollectionAppliance ∉ collect_reports envC := by
  refine ⟨?_, ?_, ?_, ?_, ?_, ?_⟩ <;>
    simp [collect_reports, print_message, collect, restart_evm_service, hc, ht, hr, hcC]

/-- C3 witness: a concrete non-coordinator host with a failed transfer,
and the all-ok coordinator host. -/
theorem collect_reports_best_effort_witness :
    (envTransferFail.isCollectionAppliance = false ∧
      envTransferFail.transferResultOk = false ∧
      envTransferFail.restartOk = true ∧
      envAllOk.isCollectionAppliance = true) ∧
    ((collect_reports envTransferFail).head? = some Action.stopEvmserverd ∧
      Action.scpReportsToCollectionAppliance ∈ collect_reports envTransferFail ∧
      Action.printMessage "coverage: There was an error sending reports" ∈
        collect_reports envTransferFail ∧
      collect envTransferFail = Except.ok
        (print_message "collecting reports" ++ collect_reports envTransferFail ++
          [Action.restartEvmService]) ∧
      (collect_reports envAllOk).head? = some Action.stopEvmserverd ∧
      Action.scpReportsToCollectionAppliance ∉ collect_reports envAllOk) :=
  ⟨⟨rfl, rfl, rfl, rfl⟩,
    collect_reports_best_effort envTransferFail envAllOk rfl rfl rfl rfl⟩

/-- C4: when the evm restart or the web-ui wait fails during install, the
exception is not caught: install() raises, and pytest_collection_finish
on a non-master process is exactly install(), so the error reaches pytest
before any test runs. -/
theorem install_failure_propagates (env : Env) (s : ApplianceState) (role : Role)
    (hrole : role ≠ Role.master)
    (hfail : env.restartOk = false ∨ env.waitOk = false) :
    (install env s).isOk = false ∧
    pytest_collection_finish role env s = install env s := by
  constructor
  · cases hre : env.restartOk <;> cases hwa : env.waitOk <;>
      rcases hfail with h | h <;>
      simp_all [install, restart_evm_service, wait_for_web_ui, Except.isOk,
        Except.toBool, Bind.bind, Except.bind, Functor.map, Except.map]
  · simp [pytest_collection_finish, hrole]

/-- C4 witness: a standalone process whose appliance fails the web-ui
health check after restart. -/
theorem install_failure_propagates_witness :
    (Role.standalone ≠ Role.master ∧
      (({ envAllOk with waitOk := false } : Env).restartOk = false ∨
        ({ envAllOk with waitOk := false } : Env).waitOk = false)) ∧
    ((install { envAllOk with waitOk := false } ⟨false⟩).isOk = false ∧
      pytest_collection_finish Role.standalone { envAllOk with waitOk := false }
          ⟨false⟩ =
        install { envAllOk with waitOk := false } ⟨false⟩) :=
  ⟨⟨by decide, Or.inr rfl⟩,
    install_failure_propagates { envAllOk with waitOk := false } ⟨false⟩
      Role.standalone (by decide) (Or.inr rfl)⟩

/-- C5: merging any nonempty collection of same-length per-line sequences
yields, at each line, null when every contributing value there is null
and otherwise the sum of the non-null hit counts; in particular merging
counts [1, null, 3] with [2, null, 0] yields [3, null, 3]. -/
theorem mergeMany_per_line (ss : List (List (Option Nat))) (L i : Nat)
    (hne : ss ≠ []) (hlen : ∀ s ∈ ss, s.length = L) (hi : i < L) :
    (mergeMany ss).getD i none = specMergeAt (ss.map fun s => s.getD i none) ∧
    (mergeMany ss).length = L ∧
    mergeMany [[some 1, none, some 3], [some 2, none, some 0]] =
      [some 3, none, some 3] :=
  ⟨getD_mergeMany L ss hne hlen i hi, length_mergeMany L ss hne hlen, rfl⟩

/-- C5 witness: the merge of the two example sequences, evaluated at the
null line and checked against the specification rule. -/
theorem mergeMany_per_line_witness :
    (mergeMany [[some 1, none, some 3], [some 2, none, some 0]]).getD 1 none =
      specMergeAt
        (([[some 1, none, some 3], [some 2, none, some 0]] :
            List (List (Option Nat))).map fun s => s.getD 1 none) ∧
    (mergeMany [[some 1, none, some 3], [some 2, none, some 0]]).length = 3 ∧
    mergeMany [[some 1, none, some 3], [some 2, none, some 0]] =
      [some 3, none, some 3] :=
  mergeMany_per_line [[some 1, none, some 3], [some 2, none, some 0]] 3 1
    (by decide) (by decide) (by decide)

/-- C6: the integration-patch step checks the marker file and, when it is
present, returns at once without patching; after one successful install
the marker is present, so a second run applies no patch and leaves the
patched appliance state unchanged. -/
theorem install_coverage_hook_idempotent (env env2 : Env)
    (s sm : ApplianceState)
    (hp : env.patchApplyOk = true) (hsm : sm.markerPresent = true) :
    install_coverage_hook env2 sm =
      ([Action.cleanApplianceCoverageDir, Action.putCoverageHook,
        Action.checkMarkerFile], sm, true) ∧
    Action.applyPatch ∉ (install_coverage_hook env2 sm).1 ∧
    (install_coverage_hook env s).2.1.markerPresent = true ∧
    install_coverage_hook env2 (install_coverage_hook env s).2.1 =
      ([Action.cleanApplianceCoverageDir, Action.putCoverageHook,
        Action.checkMarkerFile], (install_coverage_hook env s).2.1, true) ∧
    Action.applyPatch ∉
      (install_coverage_hook env2 (install_coverage_hook env s).2.1).1 := by
  have hmk : (install_coverage_hook env s).2.1.markerPresent = true := by
    by_cases h : s.markerPresent = true <;>
      simp [install_coverage_hook, h, hp]
  have h1 : install_coverage_hook env2 sm =
      ([Action.cleanApplianceCoverageDir, Action.putCoverageHook,
        Action.checkMarkerFile], sm, true) := by
    simp [install_coverage_hook, hsm]
  have h2 : install_coverage_hook env2 (install_coverage_hook env s).2.1 =
      ([Action.cleanApplianceCoverageDir, Action.putCoverageHook,
        Action.checkMarkerFile], (install_coverage_hook env s).2.1, true) := by
    generalize hgen : (install_coverage_hook env s).2.1 = st at hmk ⊢
    simp [install_coverage_hook, hmk]
  refine ⟨h1, ?_, hmk, h2, ?_⟩
  · simp [h1]
  · simp [h2]

/-- C6 witness: a fresh unpatched appliance, patched successfully once,
then run through the hook again. -/
theorem install_coverage_hook_idempotent_witness :
    (envAllOk.patchApplyOk = true ∧
      (⟨true⟩ : ApplianceState).markerPresent = true) ∧
    (install_coverage_hook envAllOk ⟨true⟩ =
        ([Action.cleanApplianceCoverageDir, Action.putCoverageHook,
          Action.checkMarkerFile], ⟨true⟩, true) ∧
      Action.applyPatch ∉ (install_coverage_hook envAllOk ⟨true⟩).1 ∧
      (install_coverage_hook envAllOk ⟨false⟩).2.1.markerPresent = true ∧
      install_coverage_hook envAllOk (install_coverage_hook envAllOk ⟨false⟩).2.1 =
        ([Action.cleanApplianceCoverageDir, Action.putCoverageHook,
          Action.checkMarkerFile],
          (install_coverage_hook envAllOk ⟨false⟩).2.1, true) ∧
      Action.applyPatch ∉
        (install_coverage_hook envAllOk
          (install_coverage_hook envAllOk ⟨false⟩).2.1).1) :=
  ⟨⟨rfl, rfl⟩,
    install_coverage_hook_idempotent envAllOk envAllOk ⟨false⟩ ⟨true⟩ rfl rfl⟩

/-- C7 counterexample: CoverageManager keeps no phase state, so merge()
issued in a session where collect() never ran is not rejected: it
proceeds normally, printing its status and retrieving the reports. -/
theorem merge_before_collect_not_rejected :
    merge envAllOk = Except.ok
      (print_message "merging reports" ++
        [Action.tarRawCoverage, Action.getRawCoverageArchive]) ∧
    (merge envAllOk).isOk = true :=
  ⟨rfl, rfl⟩

/-- C7 amended: merge() always returns normally whatever ran before, and
the only phase ordering is the one the plugin hooks impose on each
process: install at collection finish, then collect and merge at session
finish in that order where both run. -/
theorem phase_order_only_from_plugin :
    (∀ env : Env, (merge env).isOk = true) ∧
    sessionCalls Role.standalone =
      [ManagerCall.install, ManagerCall.collect, ManagerCall.merge] ∧
    sessionCalls Role.slave = [ManagerCall.install, ManagerCall.collect] ∧
    sessionCalls Role.master = [ManagerCall.merge] := by
  refine ⟨fun env => ?_, rfl, rfl, rfl⟩
  cases h : retrieve_coverage_reports env <;>
    simp [merge, h, Except.isOk, Except.toBool]

end UiCoverage
